import Mathlib

/-!
# Verification of `src/app/components/custom-fields/form.tsx`

Shallow embedding of the custom-field form component of shelf.nu: the zod
validation schema `NewCustomFieldFormSchema`, the component's local state
initialisation, the option-list editing handlers, and the rendered control
tree, together with proofs of the spec's testable properties.
-/

namespace CustomFields

/-- The `CustomFieldType` enum imported from `@prisma/client`.  Its members
are pinned by the exhaustive mapped type of `FIELD_TYPE_DESCRIPTION`
(`{ [key in CustomFieldType]: string }`) in the source, whose keys are
exactly `TEXT`, `OPTION`, `BOOLEAN`, `DATE`, `MULTILINE_TEXT`. -/
inductive CustomFieldType where
  | TEXT
  | OPTION
  | BOOLEAN
  | DATE
  | MULTILINE_TEXT
  deriving DecidableEq, Repr

/-- The string token of each enum member (prisma enum members are their
own string values, e.g. `"TEXT"`). -/
def CustomFieldType.token : CustomFieldType → String
  | .TEXT => "TEXT"
  | .OPTION => "OPTION"
  | .BOOLEAN => "BOOLEAN"
  | .DATE => "DATE"
  | .MULTILINE_TEXT => "MULTILINE_TEXT"

/-- Inverse of `CustomFieldType.token`: how `z.nativeEnum(CustomFieldType)`
matches a submitted string against the enum members. -/
def parseFieldType (s : String) : Option CustomFieldType :=
  if s = "TEXT" then some .TEXT
  else if s = "OPTION" then some .OPTION
  else if s = "BOOLEAN" then some .BOOLEAN
  else if s = "DATE" then some .DATE
  else if s = "MULTILINE_TEXT" then some .MULTILINE_TEXT
  else none

/-- The map `FIELD_TYPE_DESCRIPTION` from the source: helper text per enum member. -/
def FIELD_TYPE_DESCRIPTION : CustomFieldType → String
  | .TEXT => "A place to store short information for your asset. For instance: Serial numbers, notes or anything you wish. No input validation. Any text is acceptable."
  | .OPTION => "A dropdown list of predefined options."
  | .BOOLEAN => "A true/false or yes/no value."
  | .DATE => "A date picker for selecting a date."
  | .MULTILINE_TEXT => "A place to store longer, multiline information for your asset. For instance: Descriptions, comments, or detailed notes."

/-! ## The zod schema `NewCustomFieldFormSchema`

The submitted form fields: each key of the parsed object is either absent
(`none`, JS `undefined`) or a string; `options` is an optional array of
strings. -/

structure FormInput where
  name : Option String
  helpText : Option String
  ftype : Option String
  required : Option String
  active : Option String
  organizationId : Option String
  options : Option (List String)
  deriving Repr, DecidableEq

/-- The kind of a zod issue relevant to this schema. -/
inductive ZodIssueKind where
  | requiredMissing
  | tooSmall (minimum : Nat) (message : String)
  | invalidEnum
  deriving DecidableEq, Repr

/-- A field-level zod issue: the field's key and the issue kind. -/
structure ZodIssue where
  path : String
  kind : ZodIssueKind
  deriving DecidableEq, Repr

/-- The typed output of a successful parse of `NewCustomFieldFormSchema`.
`helpText = none` models the JS `null` produced by the transform. -/
structure ParsedCustomField where
  name : String
  helpText : Option String
  ftype : CustomFieldType
  required : Bool
  active : Bool
  organizationId : String
  options : Option (List String)
  deriving DecidableEq, Repr

/-- Field `name: z.string().min(2, "Name is required")`: absent is a missing
required field; a present string shorter than 2 raises the min-length
issue with the custom message. -/
def parseName (v : Option String) : Except ZodIssue String :=
  match v with
  | none => .error ⟨"name", .requiredMissing⟩
  | some s =>
      if s.length < 2 then .error ⟨"name", .tooSmall 2 "Name is required"⟩
      else .ok s

/-- Field `helpText: z.string().optional().transform((val) => val || null)`:
an absent or falsy (empty) string becomes `null` (`none`). -/
def parseHelpText (v : Option String) : Option String :=
  match v with
  | none => none
  | some s => if s = "" then none else some s

/-- Field `type: z.nativeEnum(CustomFieldType)`: absent is a missing required
field; a present string must be one of the enum tokens. -/
def parseType (v : Option String) : Except ZodIssue CustomFieldType :=
  match v with
  | none => .error ⟨"type", .requiredMissing⟩
  | some s =>
      match parseFieldType s with
      | some t => .ok t
      | none => .error ⟨"type", .invalidEnum⟩

/-- Field `required: z.string().optional().transform((val) => (val === "on" ? true : false))`,
and identically `active`. -/
def parseCheckbox (v : Option String) : Bool :=
  v = some "on"

/-- Field `organizationId: z.string()`: a required string. -/
def parseOrganizationId (v : Option String) : Except ZodIssue String :=
  match v with
  | none => .error ⟨"organizationId", .requiredMissing⟩
  | some s => .ok s

/-- The issues `.error e` contributes to the object-level issue list. -/
def errIssues {α : Type} : Except ZodIssue α → List ZodIssue
  | .ok _ => []
  | .error e => [e]

/-- The issue list a `safeParse` of `NewCustomFieldFormSchema` reports:
zod validates every key of the shape and collects all field issues, in
shape order (`name`, `helpText`, `type`, `required`, `active`,
`organizationId`, `options`; only `name`, `type` and `organizationId`
can fail). -/
def schemaIssues (f : FormInput) : List ZodIssue :=
  errIssues (parseName f.name) ++ errIssues (parseType f.ftype)
    ++ errIssues (parseOrganizationId f.organizationId)

/-- The schema `NewCustomFieldFormSchema` as a parser: the typed output when every
field validates, otherwise the collected field issues. -/
def NewCustomFieldFormSchema (f : FormInput) : Except (List ZodIssue) ParsedCustomField :=
  match parseName f.name, parseType f.ftype, parseOrganizationId f.organizationId with
  | .ok n, .ok t, .ok oid =>
      .ok { name := n
            helpText := parseHelpText f.helpText
            ftype := t
            required := parseCheckbox f.required
            active := parseCheckbox f.active
            organizationId := oid
            options := f.options }
  | _, _, _ => .error (schemaIssues f)

/-! ## Component props, local state and event handlers -/

/-- The props of `CustomFieldForm` (every attribute optional; `isEdit`
defaults to `false` at the destructuring). -/
structure Props where
  name : Option String
  helpText : Option String
  required : Option Bool
  ftype : Option CustomFieldType
  active : Option Bool
  options : Option (List String)
  isEdit : Bool
  deriving Repr

/-- State `useState<Array<string>>(opts || [])`: the initial option list. -/
def initialOptions (opts : Option (List String)) : List String :=
  opts.getD []

/-- State `useState<CustomFieldType>(type || "TEXT")`: the initial selected
type. -/
def initialSelectedType (t : Option CustomFieldType) : CustomFieldType :=
  t.getD .TEXT

/-- The `onRemove` handler passed to `OptionBuilder`:
`options.splice(i, 1); setOptions([...options])`.  `splice(i, 1)` deletes
the one entry at index `i` in place, shifting later entries left. -/
def onRemove (options : List String) (i : Nat) : List String :=
  options.take i ++ options.drop (i + 1)

/-- The `onAdd` handler passed to `OptionBuilder`:
`setOptions([...options, o])`. -/
def onAdd (options : List String) (o : String) : List String :=
  options ++ [o]

/-! ## The rendered control tree

`isFormProcessing` lives in `~/utils`, outside the sampled source. -/

/-- Modelled from the spec: the navigation collaborator exposes a
tri-state processing status (idle / submitting / loading). -/
inductive NavigationState where
  | idle
  | submitting
  | loading
  deriving DecidableEq, Repr

/-- Modelled from the spec: `isFormProcessing` (from `~/utils`, not in the
sampled source) reports `true` exactly while the navigation state is
submitting or loading, `false` at idle. -/
def isFormProcessing : NavigationState → Bool
  | .idle => false
  | .submitting => true
  | .loading => true

/-- What the submit button renders as its child: `disabled ? <Spinner /> : "Save"`. -/
inductive ButtonContent where
  | spinner
  | text (label : String)
  deriving DecidableEq, Repr

/-- A rendered form control, carrying exactly the payload-relevant props
the JSX passes it.  `optionBuilderC` carries only the option list because
the source passes `OptionBuilder` no `disabled` prop. -/
inductive RenderedControl where
  | inputC (nm : String) (value : String) (disabled : Bool)
  | hiddenInputC (nm : String) (value : String)
  | hiddenOptionC (idx : Nat) (value : String)
  | selectC (nm : String) (value : String) (disabled : Bool) (triggerDisabled : Bool)
  | typeDescriptionC (text : String)
  | optionBuilderC (opts : List String)
  | switchC (nm : String) (defaultChecked : Bool) (disabled : Bool)
  | submitButtonC (disabled : Bool) (content : ButtonContent)
  deriving DecidableEq, Repr

/-- Whether a rendered control is one of the form's input controls (a
user-interactive, payload-bearing control or the submit button), as
opposed to a hidden payload field or static helper text. -/
def RenderedControl.isInputControl : RenderedControl → Bool
  | .inputC _ _ _ => true
  | .selectC _ _ _ _ => true
  | .optionBuilderC _ => true
  | .switchC _ _ _ => true
  | .submitButtonC _ _ => true
  | .hiddenInputC _ _ => false
  | .hiddenOptionC _ _ => false
  | .typeDescriptionC _ => false

/-- Whether a rendered control carries a `disabled={true}` prop.  The
source passes `OptionBuilder` no `disabled` prop at all, so the
option-builder is never rendered disabled; hidden inputs and static text
likewise carry none. -/
def RenderedControl.renderedDisabled : RenderedControl → Bool
  | .inputC _ _ d => d
  | .selectC _ _ d _ => d
  | .switchC _ _ d => d
  | .submitButtonC d _ => d
  | _ => false

/-- Whether a rendered control is the option-list editor. -/
def RenderedControl.isOptionBuilder : RenderedControl → Bool
  | .optionBuilderC _ => true
  | _ => false

/-- Whether a rendered control is a hidden `options[i]` payload field. -/
def RenderedControl.isOptionsHidden : RenderedControl → Bool
  | .hiddenOptionC _ _ => true
  | _ => false

/-- The hidden `options[i]` inputs rendered inside the `OPTION` branch:
`options.map((op, i) => <input type="hidden" name={zo.fields.options(i)()} value={op} />)`
(react-zorm renders `options(i)()` as the index-suffixed key `options[i]`,
modelled structurally by `hiddenOptionC i`). -/
def optionHiddenInputs (options : List String) : List RenderedControl :=
  (options.enum).map fun p => .hiddenOptionC p.1 p.2

/-- The control tree `CustomFieldForm` renders, as a function of the
props, the navigation state, the current local state (`selectedType`,
`options`) and the organization id supplied by `useOrganizationId`. -/
def render (p : Props) (nav : NavigationState) (selectedType : CustomFieldType)
    (options : List String) (organizationId : String) : List RenderedControl :=
  let disabled := isFormProcessing nav
  [RenderedControl.inputC "name" (p.name.getD "") disabled,
   RenderedControl.selectC "type" selectedType.token disabled p.isEdit,
   RenderedControl.typeDescriptionC (FIELD_TYPE_DESCRIPTION selectedType)]
  ++ (if selectedType = .OPTION then
        RenderedControl.optionBuilderC options :: optionHiddenInputs options
      else [])
  ++ [RenderedControl.switchC "required" (p.required.getD false) disabled,
      RenderedControl.switchC "active" (p.active.getD true) disabled,
      RenderedControl.inputC "helpText" (p.helpText.getD "") disabled,
      RenderedControl.hiddenInputC "organizationId" organizationId,
      RenderedControl.submitButtonC disabled
        (if disabled then .spinner else .text "Save")]

/-- The control tree of a freshly mounted form: local state seeded from
the props. -/
def renderInitial (p : Props) (nav : NavigationState) (organizationId : String) :
    List RenderedControl :=
  render p nav (initialSelectedType p.ftype) (initialOptions p.options) organizationId

/-! ## Helper lemmas -/

/-- A successful parse of the schema fixes each output field to its field
parser's result. -/
theorem parse_ok_fields (f : FormInput) (r : ParsedCustomField)
    (h : NewCustomFieldFormSchema f = .ok r) :
    r.helpText = parseHelpText f.helpText ∧ r.required = parseCheckbox f.required ∧
      r.active = parseCheckbox f.active ∧ r.options = f.options := by
  unfold NewCustomFieldFormSchema at h
  split at h
  · cases h
    exact ⟨rfl, rfl, rfl, rfl⟩
  · simp at h

/-- Every hidden `options[i]` control is a hidden-option control and not an
input control. -/
theorem optionHiddenInputs_mem (os : List String) (c : RenderedControl)
    (hc : c ∈ optionHiddenInputs os) :
    c.isInputControl = false ∧ c.isOptionsHidden = true ∧ c.renderedDisabled = false := by
  simp only [optionHiddenInputs, List.mem_map] at hc
  obtain ⟨a, -, rfl⟩ := hc
  exact ⟨rfl, rfl, rfl⟩

/-- The list `optionHiddenInputs` keeps every hidden-option control under `filter`. -/
theorem optionHiddenInputs_filter (os : List String) :
    (optionHiddenInputs os).filter RenderedControl.isOptionsHidden = optionHiddenInputs os := by
  unfold optionHiddenInputs
  induction os.enum with
  | nil => rfl
  | cons a l ih =>
      simp only [List.map_cons, List.filter_cons] at *
      simpa [RenderedControl.isOptionsHidden] using ih

/-- Exhaustive description of the members of the rendered control tree. -/
theorem render_mem_cases (p : Props) (nav : NavigationState) (st : CustomFieldType)
    (os : List String) (oid : String) (c : RenderedControl)
    (hc : c ∈ render p nav st os oid) :
    c = .inputC "name" (p.name.getD "") (isFormProcessing nav) ∨
    c = .selectC "type" st.token (isFormProcessing nav) p.isEdit ∨
    c = .typeDescriptionC (FIELD_TYPE_DESCRIPTION st) ∨
    (st = .OPTION ∧ c = .optionBuilderC os) ∨
    (st = .OPTION ∧ c ∈ optionHiddenInputs os) ∨
    c = .switchC "required" (p.required.getD false) (isFormProcessing nav) ∨
    c = .switchC "active" (p.active.getD true) (isFormProcessing nav) ∨
    c = .inputC "helpText" (p.helpText.getD "") (isFormProcessing nav) ∨
    c = .hiddenInputC "organizationId" oid ∨
    c = .submitButtonC (isFormProcessing nav)
          (if isFormProcessing nav then .spinner else .text "Save") := by
  by_cases hst : st = .OPTION
  · subst hst
    simp [render] at hc
    tauto
  · simp [render, hst] at hc
    tauto

/-! ## Claim theorems -/

/-- C1 (counterexample): on a submission whose `active` field is absent
(and every other field valid), `NewCustomFieldFormSchema` parses
successfully but resolves `active` to `false`, not `true`: the transform
`(val) => (val === "on" ? true : false)` sends `undefined` to `false`. -/
theorem c1_counterexample :
    (NewCustomFieldFormSchema
        ⟨some "ab", none, some "TEXT", none, none, some "org1", none⟩).map
      ParsedCustomField.active ≠ Except.ok true ∧
    (NewCustomFieldFormSchema
        ⟨some "ab", none, some "TEXT", none, none, some "org1", none⟩).map
      ParsedCustomField.active = Except.ok false := by
  have heq :
      (NewCustomFieldFormSchema
          ⟨some "ab", none, some "TEXT", none, none, some "org1", none⟩).map
        ParsedCustomField.active = Except.ok false := rfl
  refine ⟨?_, heq⟩
  intro h
  rw [heq] at h
  exact absurd (Except.ok.inj h) (by decide)

/-- C1 (amended): the schema resolves an absent `active` field to `false`
(it resolves to `true` only for the value `"on"`); the spec's default-true
holds of the rendering instead: with no initial `active` value the Switch
is rendered default-checked. -/
theorem c1_active_default (f : FormInput) (r : ParsedCustomField)
    (hf : f.active = none) (hr : NewCustomFieldFormSchema f = .ok r)
    (p : Props) (hp : p.active = none) (nav : NavigationState)
    (st : CustomFieldType) (os : List String) (oid : String) :
    r.active = false ∧
      RenderedControl.switchC "active" true (isFormProcessing nav)
        ∈ render p nav st os oid := by
  refine ⟨?_, ?_⟩
  · have h := (parse_ok_fields f r hr).2.2.1
    rw [h, hf]
    rfl
  · simp [render, hp]

/-- C1 (witness): the amended claim at a concrete submission and concrete
props with `active` absent. -/
theorem c1_active_default_witness :
    (⟨"ab", none, .TEXT, false, false, "org1", none⟩ : ParsedCustomField).active = false ∧
      RenderedControl.switchC "active" true (isFormProcessing .idle)
        ∈ render ⟨none, none, none, none, none, none, false⟩ .idle .TEXT [] "org1" :=
  c1_active_default ⟨some "ab", none, some "TEXT", none, none, some "org1", none⟩
    ⟨"ab", none, .TEXT, false, false, "org1", none⟩ rfl rfl
    ⟨none, none, none, none, none, none, false⟩ rfl .idle .TEXT [] "org1"

/-- C2 (counterexample): while the navigation state is `submitting` and the
selected type is `OPTION`, the option-list editor is a rendered input
control that is NOT rendered disabled — the source passes `OptionBuilder`
no `disabled` prop — so not every input control is disabled during
processing. -/
theorem c2_counterexample :
    isFormProcessing .submitting = true ∧
    RenderedControl.optionBuilderC ["Large"]
      ∈ render ⟨none, none, none, some .OPTION, none, some ["Large"], false⟩
          .submitting .OPTION ["Large"] "org1" ∧
    (RenderedControl.optionBuilderC ["Large"]).isInputControl = true ∧
    (RenderedControl.optionBuilderC ["Large"]).renderedDisabled = false := by
  refine ⟨rfl, ?_, rfl, rfl⟩
  simp [render]

/-- C2 (amended): while the navigation state is processing, every rendered
input control EXCEPT the option-list editor is rendered disabled and the
submit button renders a spinner; the `OptionBuilder` receives no
`disabled` prop.  At idle, every control is rendered enabled and the
submit button renders its "Save" label. -/
theorem c2_disable_while_processing (p : Props) (nav : NavigationState)
    (st : CustomFieldType) (os : List String) (oid : String)
    (h : isFormProcessing nav = true) :
    (∀ c ∈ render p nav st os oid,
        c.isInputControl = true → c.isOptionBuilder = false → c.renderedDisabled = true) ∧
    RenderedControl.submitButtonC true .spinner ∈ render p nav st os oid ∧
    (∀ c ∈ render p .idle st os oid, c.renderedDisabled = false) ∧
    RenderedControl.submitButtonC false (.text "Save") ∈ render p .idle st os oid := by
  refine ⟨?_, ?_, ?_, ?_⟩
  · intro c hc hinput hnotb
    rcases render_mem_cases p nav st os oid c hc with
      hc | hc | hc | ⟨-, hc⟩ | ⟨-, hc⟩ | hc | hc | hc | hc | hc
    · subst hc; exact h
    · subst hc; exact h
    · subst hc; exact Bool.noConfusion hinput
    · subst hc; exact Bool.noConfusion hnotb
    · exact Bool.noConfusion ((optionHiddenInputs_mem os c hc).1.symm.trans hinput)
    · subst hc; exact h
    · subst hc; exact h
    · subst hc; exact h
    · subst hc; exact Bool.noConfusion hinput
    · subst hc; exact h
  · simp [render, h]
  · intro c hc
    rcases render_mem_cases p .idle st os oid c hc with
      hc | hc | hc | ⟨-, hc⟩ | ⟨-, hc⟩ | hc | hc | hc | hc | hc
    all_goals first
      | (subst hc; rfl)
      | exact (optionHiddenInputs_mem os c hc).2.2
  · simp [render, isFormProcessing]

/-- C2 (witness): the amended claim at the submitting state with concrete
props, exhibiting a concrete disabled name input and the spinner button. -/
theorem c2_disable_while_processing_witness :
    isFormProcessing .submitting = true ∧
    (RenderedControl.inputC "name" "" true).renderedDisabled = true ∧
    RenderedControl.submitButtonC true .spinner
      ∈ render ⟨none, none, none, none, none, none, false⟩ .submitting .TEXT [] "org1" := by
  refine ⟨rfl, ?_, ?_⟩
  · exact (c2_disable_while_processing ⟨none, none, none, none, none, none, false⟩
      .submitting .TEXT [] "org1" (by decide)).1 (.inputC "name" "" true)
      (by simp [render, isFormProcessing]) rfl rfl
  · exact (c2_disable_while_processing ⟨none, none, none, none, none, none, false⟩
      .submitting .TEXT [] "org1" (by decide)).2.1

/-- C3: the control tree's hidden option fields are exactly
`optionHiddenInputs os` (one `options[i]` field per option, index-suffixed)
when the selected type is `OPTION`, and there are none for every other
variant, so the submitted payload omits all options entries; moreover
there is exactly one hidden field per option. -/
theorem c3_options_only_when_option (p : Props) (nav : NavigationState)
    (st : CustomFieldType) (os : List String) (oid : String) :
    (render p nav st os oid).filter RenderedControl.isOptionsHidden
      = (if st = .OPTION then optionHiddenInputs os else []) ∧
    (optionHiddenInputs os).length = os.length := by
  constructor
  · by_cases hst : st = .OPTION
    · subst hst
      simp [render, List.filter_append, RenderedControl.isOptionsHidden,
        optionHiddenInputs_filter]
    · simp [render, hst, RenderedControl.isOptionsHidden]
  · simp [optionHiddenInputs]

/-- C4: the `onRemove` handler (`options.splice(i, 1)` followed by
`setOptions`) yields the original list with exactly the entry at position
`i` excluded: the length drops by one, entries before `i` are unchanged,
and each entry from position `i` on is the original entry one position to
the right. -/
theorem c4_onRemove_removes_index (l : List String) (i j : Nat)
    (hn : 1 < l.length) (hi : i < l.length) :
    (onRemove l i).length = l.length - 1 ∧
    (onRemove l i)[j]? = (if j < i then l[j]? else l[j + 1]?) := by
  constructor
  · simp only [onRemove, List.length_append, List.length_take, List.length_drop]
    omega
  · unfold onRemove
    by_cases hj : j < i
    · rw [if_pos hj]
      rw [List.getElem?_append_left]
      · exact List.getElem?_take_of_lt hj
      · simpa [List.length_take] using by omega
    · rw [if_neg hj]
      rw [List.getElem?_append_right]
      · rw [List.getElem?_drop]
        congr 1
        simp only [List.length_take]
        omega
      · simp only [List.length_take]
        omega

/-- C4 (witness): removing index 1 from `["a", "b", "c"]`. -/
theorem c4_onRemove_removes_index_witness :
    (onRemove ["a", "b", "c"] 1).length = ["a", "b", "c"].length - 1 ∧
    (onRemove ["a", "b", "c"] 1)[1]?
      = (if 1 < 1 then ["a", "b", "c"][1]? else ["a", "b", "c"][1 + 1]?) :=
  c4_onRemove_removes_index ["a", "b", "c"] 1 1 (by decide) (by decide)

/-- C5: on a submission whose `name` is the empty string and whose other
fields are valid, the schema reports exactly one issue: the min-length
issue on `name` (with the source's message), and no issue on any other
field. -/
theorem c5_empty_name_min_error (f : FormInput) (t : CustomFieldType) (oid : String)
    (hname : f.name = some "")
    (ht : parseType f.ftype = .ok t)
    (ho : parseOrganizationId f.organizationId = .ok oid) :
    schemaIssues f = [⟨"name", .tooSmall 2 "Name is required"⟩] ∧
    NewCustomFieldFormSchema f = .error [⟨"name", .tooSmall 2 "Name is required"⟩] := by
  have hn : parseName f.name = .error ⟨"name", .tooSmall 2 "Name is required"⟩ := by
    rw [hname]; rfl
  have hs : schemaIssues f = [⟨"name", .tooSmall 2 "Name is required"⟩] := by
    unfold schemaIssues
    rw [hn, ht, ho]
    rfl
  refine ⟨hs, ?_⟩
  unfold NewCustomFieldFormSchema
  rw [hn, ht, ho, hs]

/-- C5 (witness): the empty-name submission with every other field
valid. -/
theorem c5_empty_name_min_error_witness :
    schemaIssues ⟨some "", none, some "TEXT", none, none, some "org1", none⟩
      = [⟨"name", .tooSmall 2 "Name is required"⟩] ∧
    NewCustomFieldFormSchema ⟨some "", none, some "TEXT", none, none, some "org1", none⟩
      = .error [⟨"name", .tooSmall 2 "Name is required"⟩] :=
  c5_empty_name_min_error ⟨some "", none, some "TEXT", none, none, some "org1", none⟩
    .TEXT "org1" rfl rfl rfl

/-- C6: the schema resolves `required` to the checkbox transform of its
submitted value, which is `true` exactly for the string `"on"` and `false`
for every other value and for an absent field. -/
theorem c6_required_on_iff (f : FormInput) (r : ParsedCustomField) (v : Option String)
    (h : NewCustomFieldFormSchema f = .ok r) :
    r.required = parseCheckbox f.required ∧
    (parseCheckbox v = true ↔ v = some "on") ∧
    parseCheckbox none = false := by
  refine ⟨(parse_ok_fields f r h).2.1, ?_, rfl⟩
  simp [parseCheckbox]

/-- C6 (witness): a checked `required` checkbox resolves to `true`. -/
theorem c6_required_on_iff_witness :
    (⟨"ab", none, .TEXT, true, false, "org1", none⟩ : ParsedCustomField).required
      = parseCheckbox (some "on") ∧
    (parseCheckbox (some "notOn") = true ↔ some "notOn" = some "on") ∧
    parseCheckbox none = false :=
  c6_required_on_iff ⟨some "ab", none, some "TEXT", some "on", none, some "org1", none⟩
    ⟨"ab", none, .TEXT, true, false, "org1", none⟩ (some "notOn") rfl

/-- C7: an absent `helpText` is normalised by the schema transform to the
explicit no-value marker (`null`, modelled `none`); and with no initial
`helpText` the rendered input carries the empty string as its value
(`defaultValue={helpText || ""}`), so an untouched field is submitted as
`""` — which the transform also sends to `null`. -/
theorem c7_helpText_absent (p : Props) (nav : NavigationState) (st : CustomFieldType)
    (os : List String) (oid : String) (hp : p.helpText = none) :
    parseHelpText none = none ∧
    parseHelpText (some "") = none ∧
    RenderedControl.inputC "helpText" "" (isFormProcessing nav) ∈ render p nav st os oid := by
  refine ⟨rfl, rfl, ?_⟩
  simp [render, hp]

/-- C7 (witness): concrete props with no `helpText`. -/
theorem c7_helpText_absent_witness :
    parseHelpText none = none ∧
    parseHelpText (some "") = none ∧
    RenderedControl.inputC "helpText" "" (isFormProcessing .idle)
      ∈ render ⟨none, none, none, none, none, none, false⟩ .idle .TEXT [] "org1" :=
  c7_helpText_absent ⟨none, none, none, none, none, none, false⟩ .idle .TEXT [] "org1" rfl

/-- C8: with `isEdit = true` the rendered type select still carries the
name `"type"` and the previously selected type's token as its value while
its trigger is rendered disabled, so the payload still submits that
type. -/
theorem c8_isEdit_locks_type (p : Props) (t : CustomFieldType) (nav : NavigationState)
    (oid : String) (he : p.isEdit = true) (ht : p.ftype = some t) :
    RenderedControl.selectC "type" t.token (isFormProcessing nav) true
      ∈ renderInitial p nav oid := by
  simp [renderInitial, render, initialSelectedType, ht, he]

/-- C8 (witness): editing a `DATE` field. -/
theorem c8_isEdit_locks_type_witness :
    RenderedControl.selectC "type" CustomFieldType.DATE.token (isFormProcessing .idle) true
      ∈ renderInitial ⟨none, none, none, some .DATE, none, none, true⟩ .idle "org1" :=
  c8_isEdit_locks_type ⟨none, none, none, some .DATE, none, none, true⟩ .DATE .idle
    "org1" rfl rfl

/-- C9: `parseFieldType` accepts a submitted type string exactly when it
is one of the five enum tokens; an accepted token is what `parseType`
returns, and any other string makes the whole schema parse fail with a
field-level invalid-enum issue on `type`. -/
theorem c9_type_enum_closed (s : String) (f : FormInput) (t : CustomFieldType)
    (hf : f.ftype = some s) :
    ((parseFieldType s).isSome ↔
        s ∈ ["TEXT", "MULTILINE_TEXT", "BOOLEAN", "DATE", "OPTION"]) ∧
    (parseFieldType s = some t → parseType f.ftype = .ok t) ∧
    (parseFieldType s = none →
        NewCustomFieldFormSchema f = .error (schemaIssues f) ∧
        ZodIssue.mk "type" .invalidEnum ∈ schemaIssues f) := by
  refine ⟨?_, ?_, ?_⟩
  · unfold parseFieldType
    split_ifs <;> simp_all
  · intro hpt
    simp [parseType, hf, hpt]
  · intro hpt
    have hT : parseType f.ftype = .error ⟨"type", .invalidEnum⟩ := by
      simp [parseType, hf, hpt]
    constructor
    · unfold NewCustomFieldFormSchema
      rw [hT]
      cases hpn : parseName f.name <;>
        cases hpo : parseOrganizationId f.organizationId <;> rfl
    · unfold schemaIssues
      rw [hT]
      simp [errIssues]

/-- C9 (witness): the string `"COLOR"` is rejected with an invalid-enum
issue on `type`, the token list being closed. -/
theorem c9_type_enum_closed_witness :
    ((parseFieldType "COLOR").isSome ↔
        "COLOR" ∈ ["TEXT", "MULTILINE_TEXT", "BOOLEAN", "DATE", "OPTION"]) ∧
    (parseFieldType "COLOR" = some .TEXT →
        parseType (FormInput.ftype ⟨some "ab", none, some "COLOR", none, none, some "org1", none⟩)
          = .ok .TEXT) ∧
    (parseFieldType "COLOR" = none →
        NewCustomFieldFormSchema ⟨some "ab", none, some "COLOR", none, none, some "org1", none⟩
            = .error (schemaIssues ⟨some "ab", none, some "COLOR", none, none, some "org1", none⟩) ∧
        ZodIssue.mk "type" .invalidEnum
          ∈ schemaIssues ⟨some "ab", none, some "COLOR", none, none, some "org1", none⟩) :=
  c9_type_enum_closed "COLOR" ⟨some "ab", none, some "COLOR", none, none, some "org1", none⟩
    .TEXT rfl

/-- C10: with no initial `type` prop the seeded selected type is `TEXT`
(`type || "TEXT"`), so the freshly mounted form renders the type select
with value `"TEXT"` and shows the `TEXT` variant's helper description. -/
theorem c10_default_type_text (p : Props) (nav : NavigationState) (oid : String)
    (hft : p.ftype = none) :
    initialSelectedType p.ftype = .TEXT ∧
    RenderedControl.selectC "type" "TEXT" (isFormProcessing nav) p.isEdit
      ∈ renderInitial p nav oid ∧
    RenderedControl.typeDescriptionC (FIELD_TYPE_DESCRIPTION .TEXT)
      ∈ renderInitial p nav oid := by
  refine ⟨by rw [hft]; rfl, ?_, ?_⟩ <;>
    simp [renderInitial, render, initialSelectedType, hft, CustomFieldType.token]

/-- C10 (witness): concrete props with no `type`. -/
theorem c10_default_type_text_witness :
    initialSelectedType (Props.ftype ⟨none, none, none, none, none, none, false⟩) = .TEXT ∧
    RenderedControl.selectC "type" "TEXT" (isFormProcessing .idle)
        (Props.isEdit ⟨none, none, none, none, none, none, false⟩)
      ∈ renderInitial ⟨none, none, none, none, none, none, false⟩ .idle "org1" ∧
    RenderedControl.typeDescriptionC (FIELD_TYPE_DESCRIPTION .TEXT)
      ∈ renderInitial ⟨none, none, none, none, none, none, false⟩ .idle "org1" :=
  c10_default_type_text ⟨none, none, none, none, none, none, false⟩ .idle "org1" rfl

end CustomFields

